import Mathlib

/-!
Verification of the array_devices driver for the Array 3710A DC electronic
load, a shallow embedding of array_devices/array3710.py.

Byte strings are modelled as lists of natural numbers, each element one byte
value; serial frames are lists of length 26.  In-place buffer mutation from
the source is modelled by pure list transformations, and the serial transport
is modelled by a function sending each read-attempt number to the byte string
that read returns.
-/

namespace ArrayDevices

/-- Checksum of a byte string excluding its last byte: the sum of all byte
values except the last, reduced to the lowest byte (Load.__get_checksum). -/
def get_checksum (byte_str : List ℕ) : ℕ :=
  byte_str.dropLast.sum % 256

/-- Offset of the checksum byte inside a 26-byte frame (Load.OFFSET_CHECKSUM). -/
def OFFSET_CHECKSUM : ℕ := 25

/-- Writes the checksum into the last byte of a frame, computed from the
values in the frame (Load.__set_checksum). -/
def set_checksum_buf (buf : List ℕ) : List ℕ :=
  buf.set OFFSET_CHECKSUM (get_checksum buf)

/-- Verifies the trailing checksum byte of a full packet: the last byte of the
string must equal the checksum of the rest (Load.__is_valid_checksum). -/
def is_valid_checksum (byte_str : List ℕ) : Bool :=
  byte_str.getD (byte_str.length - 1) 0 == get_checksum byte_str

lemma dropLast_eq_take25 {l : List ℕ} (h : l.length = 26) :
    l.dropLast = l.take 25 := by
  rw [List.dropLast_eq_take, h]

lemma take25_set25 (l : List ℕ) (c : ℕ) :
    (l.set 25 c).take 25 = l.take 25 := by
  rw [List.set_take]
  exact List.set_eq_of_length_le (by simp)

lemma sum_take_decomp (t : List ℕ) (i : ℕ) (h : i < t.length) :
    t.sum = (t.take i).sum + t.getD i 0 + (t.drop (i + 1)).sum := by
  conv_lhs => rw [← List.take_append_drop (i + 1) t]
  rw [List.sum_append, List.take_succ, List.getElem?_eq_getElem h,
    List.getD_eq_getElem _ _ h, List.sum_append]
  simp only [Option.toList_some, List.sum_cons, List.sum_nil]
  omega

lemma sum_set_lt (t : List ℕ) (i b : ℕ) (h : i < t.length) :
    (t.set i b).sum = (t.take i).sum + b + (t.drop (i + 1)).sum := by
  rw [List.sum_set]
  simp [h]

/-- C8: for every 26-byte buffer, writing the checksum (sum of bytes 0..24
modulo 256, stored at byte 25) and then validating succeeds; and for every
such signed buffer, changing any single one of bytes 0..24 to a different
byte value makes checksum validation fail. -/
theorem checksum_roundtrip_tamper (buf : List ℕ) (hlen : buf.length = 26) :
    is_valid_checksum (set_checksum_buf buf) = true ∧
    ∀ i, i < 25 → ∀ b, b < 256 → buf.getD i 0 < 256 → b ≠ buf.getD i 0 →
      is_valid_checksum ((set_checksum_buf buf).set i b) = false := by
  have h25 : (25 : ℕ) < buf.length := by omega
  constructor
  · have hlen' : (set_checksum_buf buf).length = 26 := by
      simp [set_checksum_buf, hlen]
    have h1 : (set_checksum_buf buf).getD 25 0 = get_checksum buf := by
      simp [set_checksum_buf, OFFSET_CHECKSUM, List.getD_eq_getElem?_getD,
        List.getElem?_set_self h25]
    have h2 : get_checksum (set_checksum_buf buf) = get_checksum buf := by
      unfold get_checksum set_checksum_buf OFFSET_CHECKSUM
      rw [dropLast_eq_take25 (by simp [hlen]), dropLast_eq_take25 hlen,
        take25_set25]
    simp only [is_valid_checksum, hlen', show (26 : ℕ) - 1 = 25 from rfl,
      h1, h2, beq_self_eq_true]
  · intro i hi b hb hold hne
    have hslen : (set_checksum_buf buf).length = 26 := by
      simp [set_checksum_buf, hlen]
    have hmlen : ((set_checksum_buf buf).set i b).length = 26 := by
      simp [hslen]
    have hgetD25 : ((set_checksum_buf buf).set i b).getD 25 0
        = get_checksum buf := by
      have hne' : i ≠ 25 := by omega
      simp [List.getD_eq_getElem?_getD, List.getElem?_set_ne hne',
        set_checksum_buf, OFFSET_CHECKSUM, List.getElem?_set_self h25]
    have hcs : get_checksum ((set_checksum_buf buf).set i b)
        = ((buf.take 25).set i b).sum % 256 := by
      unfold get_checksum
      rw [dropLast_eq_take25 hmlen, List.set_take]
      unfold set_checksum_buf OFFSET_CHECKSUM
      rw [take25_set25]
    have hgc : get_checksum buf = (buf.take 25).sum % 256 := by
      unfold get_checksum
      rw [dropLast_eq_take25 hlen]
    have htlen : (buf.take 25).length = 25 := by simp [hlen]
    have hti : (buf.take 25).getD i 0 = buf.getD i 0 := by
      simp [List.getD_eq_getElem?_getD, List.getElem?_take_of_lt hi]
    have hdec := sum_take_decomp (buf.take 25) i (by omega)
    have hset := sum_set_lt (buf.take 25) i b (by omega)
    simp only [is_valid_checksum, hmlen, show (26 : ℕ) - 1 = 25 from rfl,
      hgetD25, hcs]
    rw [beq_eq_false_iff_ne]
    rw [hgc, hdec, hset, hti]
    intro hcontra
    omega

/-- Witness for checksum_roundtrip_tamper at a concrete 26-byte buffer. -/
theorem checksum_roundtrip_tamper_witness :
    (List.replicate 26 7).length = 26 ∧
    is_valid_checksum (set_checksum_buf (List.replicate 26 7)) = true ∧
    is_valid_checksum ((set_checksum_buf (List.replicate 26 7)).set 0 9)
      = false := by
  refine ⟨by decide, (checksum_roundtrip_tamper (List.replicate 26 7)
    (by decide)).1, (checksum_roundtrip_tamper (List.replicate 26 7)
    (by decide)).2 0 (by decide) 9 (by decide) (by decide) (by decide)⟩

/-! Program model: ProgramStep and Program from array3710.py. -/

/-- Maximum step settings, indexed by the program-type code
(ProgramStep.MAX_SETTINGS). -/
def MAX_SETTINGS : List ℚ := [0, 30, 200, 500]

/-- Conversion divisors between internal and external step representations,
indexed by the program-type code (ProgramStep.SETTING_DIVIDES). -/
def SETTING_DIVIDES : List ℚ := [1, 1000, 10, 100]

/-- Error values raised by the Python code. -/
inductive PyErr where
  | valueError (msg : String)
  | indexError (msg : String)
deriving DecidableEq

/-- Setter ProgramStep.setting: validates the physical value against the
owning program's type and stores the value multiplied by
SETTING_DIVIDES[prog_type]. -/
def step_set_setting (prog_type : ℕ) (value : ℚ) : Except PyErr ℚ :=
  if 0 ≤ value ∧ value ≤ MAX_SETTINGS.getD prog_type 0 then
    .ok (value * SETTING_DIVIDES.getD prog_type 0)
  else
    .error (.valueError "Setting outside of valid range")

/-- Getter ProgramStep.setting: the stored value divided by
SETTING_DIVIDES[prog_type]. -/
def step_setting (prog_type : ℕ) (stored : ℚ) : ℚ :=
  stored / SETTING_DIVIDES.getD prog_type 0

/-- Setter ProgramStep.duration: between 1 and 60000 seconds. -/
def step_set_duration (value : ℚ) : Except PyErr ℚ :=
  if 0 < value ∧ value ≤ 60000 then .ok value
  else .error (.valueError "Duration should be between 1-60000 seconds")

/-- One step in a program, holding the internally stored (already scaled)
setting and the duration (ProgramStep). -/
structure ProgramStep where
  _setting : ℚ
  _duration : ℚ
deriving DecidableEq

/-- Raw data from a step to be encoded into the buffer
(ProgramStep.raw_data). -/
def raw_data (s : ProgramStep) : ℚ × ℚ :=
  (s._setting, s._duration)

/-- Constructor ProgramStep.__init__: runs both validating setters. -/
def mk_program_step (prog_type : ℕ) (setting duration : ℚ) :
    Except PyErr ProgramStep := do
  let s ← step_set_setting prog_type setting
  let d ← step_set_duration duration
  return ⟨s, d⟩

/-- A ten-step program for the load (Program). -/
structure Program where
  _program_type : ℕ
  _prog_steps : List ProgramStep
  _program_mode : ℕ
deriving DecidableEq

/-- Adds a step to a program (Program.add_step): room for at most 10 steps is
checked first, then the step is constructed with validation and appended. -/
def add_step (p : Program) (setting duration : ℚ) : Except PyErr Program :=
  if p._prog_steps.length < 10 then do
    let s ← mk_program_step p._program_type setting duration
    return { p with _prog_steps := p._prog_steps ++ [s] }
  else
    .error (.indexError "Maximum of 10 steps are allowed")

/-- Removes the step at the given position, counting from the end when the
position is negative, as the Python del statement does
(Program.delete_step). -/
def delete_step (p : Program) (position : ℤ) : Except PyErr Program :=
  let n : ℤ := p._prog_steps.length
  let idx : ℤ := if position < 0 then position + n else position
  if 0 ≤ idx ∧ idx < n then
    .ok { p with _prog_steps := p._prog_steps.eraseIdx idx.toNat }
  else
    .error (.indexError "list assignment index out of range")

/-- Iterates 5 steps from the start position, yielding the pairs packed into
the buffer, with pairs of zeros for missing steps
(Program.partial_steps_data). -/
def partial_steps_data (p : Program) (start : ℕ) : List (ℚ × ℚ) :=
  let real := if start ≤ p._prog_steps.length then
      ((p._prog_steps.drop start).take 5).map raw_data
    else []
  real ++ List.replicate (5 - real.length) (0, 0)

/-- C1 counterexample: for a program of type current (code 0x01) the claimed
divide table gives divisor 1, but the code stores a setting of 30 amps as
30000: the stored setting is the value times 1000, not the value times 1. -/
theorem setting_divides_counterexample :
    step_set_setting 1 30 = Except.ok 30000 ∧ (30000 : ℚ) ≠ 30 * 1 ∧
    step_setting 1 30000 = 30 ∧ (30 : ℚ) ≠ 30000 / 1 := by
  refine ⟨?_, by norm_num, ?_, by norm_num⟩ <;>
    simp [step_set_setting, step_setting, MAX_SETTINGS, SETTING_DIVIDES] <;>
    norm_num

/-- C1 amended: for program types current (1), power (2) and resistance (3)
the internally stored setting equals the physical setting multiplied by the
divisor from the table current 1000, power 10, resistance 100, and the
setting accessor returns the stored value divided by that same divisor. -/
theorem setting_divides_table (prog_type : ℕ)
    (ht : prog_type = 1 ∨ prog_type = 2 ∨ prog_type = 3) (value stored : ℚ)
    (hv : 0 ≤ value ∧ value ≤ MAX_SETTINGS.getD prog_type 0) :
    step_set_setting prog_type value = Except.ok (value *
      (if prog_type = 1 then 1000 else if prog_type = 2 then 10 else 100)) ∧
    step_setting prog_type stored = stored /
      (if prog_type = 1 then 1000 else if prog_type = 2 then 10 else 100) := by
  obtain ⟨hv1, hv2⟩ := hv
  rcases ht with rfl | rfl | rfl <;>
    simp [MAX_SETTINGS] at hv2 <;>
    simp [step_set_setting, step_setting, MAX_SETTINGS, SETTING_DIVIDES,
      hv1, hv2]

/-- Witness for setting_divides_table with a current-type step of 30 amps. -/
theorem setting_divides_table_witness :
    ((1 : ℕ) = 1 ∨ (1 : ℕ) = 2 ∨ (1 : ℕ) = 3) ∧
    (0 ≤ (30 : ℚ) ∧ (30 : ℚ) ≤ MAX_SETTINGS.getD 1 0) ∧
    (step_set_setting 1 30 = Except.ok (30 *
      (if (1 : ℕ) = 1 then 1000 else if (1 : ℕ) = 2 then 10 else 100)) ∧
    step_setting 1 77 = 77 /
      (if (1 : ℕ) = 1 then 1000 else if (1 : ℕ) = 2 then 10 else 100)) :=
  ⟨Or.inl rfl, by norm_num [MAX_SETTINGS],
    setting_divides_table 1 (Or.inl rfl) 30 77 (by norm_num [MAX_SETTINGS])⟩

lemma getD_replicate_pair (n m : ℕ) :
    (List.replicate n ((0 : ℚ), (0 : ℚ))).getD m (0, 0) = (0, 0) := by
  rw [List.getD_eq_getElem?_getD, List.getElem?_replicate]
  split <;> rfl

/-- C6: the step count never exceeds 10; adding to a program with fewer than
10 steps succeeds for a valid setting and duration; adding an 11th step fails
with the capacity error (leaving the program unchanged, as the error is
raised before any mutation); deleting from an empty program fails; and after
deleting one step from a full program a new step can be added again. -/
theorem program_capacity (p : Program) (s d : ℚ)
    (hs : 0 ≤ s ∧ s ≤ MAX_SETTINGS.getD p._program_type 0)
    (hd : 0 < d ∧ d ≤ 60000) :
    (∀ p', add_step p s d = Except.ok p' → p'._prog_steps.length ≤ 10) ∧
    (p._prog_steps.length < 10 → ∃ p', add_step p s d = Except.ok p' ∧
      p'._prog_steps.length = p._prog_steps.length + 1) ∧
    (p._prog_steps.length = 10 → add_step p s d =
      Except.error (.indexError "Maximum of 10 steps are allowed")) ∧
    (p._prog_steps.length = 0 →
      ∀ pos : ℤ, ∃ e, delete_step p pos = Except.error e) ∧
    (p._prog_steps.length = 10 → ∃ p', delete_step p (-1) = Except.ok p' ∧
      ∃ p'', add_step p' s d = Except.ok p'' ∧
        p''._prog_steps.length = 10) := by
  obtain ⟨hs1, hs2⟩ := hs
  obtain ⟨hd1, hd2⟩ := hd
  have hmk : ∀ q : Program, q._program_type = p._program_type →
      mk_program_step q._program_type s d =
      Except.ok ⟨s * SETTING_DIVIDES.getD p._program_type 0, d⟩ := by
    intro q hq
    rw [hq]
    rw [List.getD_eq_getElem?_getD] at hs2
    simp [mk_program_step, step_set_setting, step_set_duration,
      hs1, hs2, hd1, hd2, Bind.bind, Except.bind, Pure.pure, Except.pure]
  refine ⟨?_, ?_, ?_, ?_, ?_⟩
  · intro p' hp'
    by_cases h : p._prog_steps.length < 10
    · simp [add_step, h, hmk p rfl] at hp'
      rw [← hp']
      simp
      omega
    · simp [add_step, h] at hp'
  · intro h
    refine ⟨{ p with _prog_steps := p._prog_steps ++
      [⟨s * SETTING_DIVIDES.getD p._program_type 0, d⟩] }, ?_, ?_⟩
    · simp [add_step, h, hmk p rfl]
    · simp
  · intro h
    simp [add_step, h]
  · intro h pos
    refine ⟨.indexError "list assignment index out of range", ?_⟩
    simp only [delete_step, h]
    rw [if_neg]
    intro hcon
    omega
  · intro h
    have hdel : delete_step p (-1) =
        Except.ok { p with _prog_steps := p._prog_steps.eraseIdx 9 } := by
      simp [delete_step, h]
    refine ⟨_, hdel, ?_⟩
    have hlen9 : (p._prog_steps.eraseIdx 9).length = 9 := by
      rw [List.length_eraseIdx]
      simp [h]
    refine ⟨{ p with _prog_steps := p._prog_steps.eraseIdx 9 ++
      [⟨s * SETTING_DIVIDES.getD p._program_type 0, d⟩] }, ?_, ?_⟩
    · simp [add_step, hlen9, hmk { p with _prog_steps := p._prog_steps.eraseIdx 9 } rfl]
    · simp [hlen9]

/-- Witness for program_capacity at a full resistance-mode program. -/
theorem program_capacity_witness :
    (0 ≤ (500 : ℚ) ∧ (500 : ℚ) ≤ MAX_SETTINGS.getD 3 0) ∧
    (0 < (10 : ℚ) ∧ (10 : ℚ) ≤ 60000) ∧
    (Program.mk 3 (List.replicate 10 ⟨50000, 10⟩) 0)._prog_steps.length
      = 10 ∧
    (add_step (Program.mk 3 (List.replicate 10 ⟨50000, 10⟩) 0) 500 10 =
      Except.error (.indexError "Maximum of 10 steps are allowed")) ∧
    (∃ p', delete_step (Program.mk 3 (List.replicate 10 ⟨50000, 10⟩) 0) (-1)
        = Except.ok p' ∧
      ∃ p'', add_step p' 500 10 = Except.ok p'' ∧
        p''._prog_steps.length = 10) := by
  have h1 : 0 ≤ (500 : ℚ) ∧ (500 : ℚ) ≤ MAX_SETTINGS.getD 3 0 := by
    norm_num [MAX_SETTINGS]
  have h2 : 0 < (10 : ℚ) ∧ (10 : ℚ) ≤ 60000 := by norm_num
  have hfull : (Program.mk 3 (List.replicate 10
      (⟨50000, 10⟩ : ProgramStep)) 0)._prog_steps.length = 10 := by simp
  have hcap := program_capacity
    (Program.mk 3 (List.replicate 10 ⟨50000, 10⟩) 0) 500 10 h1 h2
  exact ⟨h1, h2, hfull, hcap.2.2.1 hfull, hcap.2.2.2.2 hfull⟩

/-- C7: for every program with at most 10 steps and every start index, the
half-payload generator yields exactly 5 pairs: the stored steps from the
start index in insertion order first, then pairs of zeros for every slot
beyond the stored step count. -/
theorem partial_steps_data_spec (p : Program)
    (hlen : p._prog_steps.length ≤ 10) (start : ℕ) :
    (partial_steps_data p start).length = 5 ∧
    ∀ i, i < 5 → (partial_steps_data p start).getD i (0, 0) =
      if start + i < p._prog_steps.length then
        (p._prog_steps.map raw_data).getD (start + i) (0, 0)
      else (0, 0) := by
  by_cases hstart : start ≤ p._prog_steps.length
  · have hreal : partial_steps_data p start =
        ((p._prog_steps.drop start).take 5).map raw_data ++
        List.replicate
          (5 - (((p._prog_steps.drop start).take 5).map raw_data).length)
          (0, 0) := by
      simp [partial_steps_data, hstart]
    have hrlen : (((p._prog_steps.drop start).take 5).map raw_data).length
        = min 5 (p._prog_steps.length - start) := by
      simp
    constructor
    · rw [hreal]
      simp only [List.length_append, List.length_replicate, hrlen]
      omega
    · intro i hi
      rw [hreal]
      by_cases hig : i < min 5 (p._prog_steps.length - start)
      · have hidx : start + i < p._prog_steps.length := by omega
        rw [List.getD_append _ _ _ _ (by rw [hrlen]; omega)]
        rw [if_pos hidx]
        simp [List.getD_eq_getElem?_getD, List.getElem?_take_of_lt hi,
          List.getElem?_drop]
      · have hige : ¬ (start + i < p._prog_steps.length) := by omega
        rw [List.getD_append_right _ _ _ _ (by rw [hrlen]; omega)]
        rw [if_neg hige]
        exact getD_replicate_pair _ _
  · have hreal : partial_steps_data p start = List.replicate 5 (0, 0) := by
      simp [partial_steps_data, hstart]
    rw [hreal]
    refine ⟨by simp, ?_⟩
    intro i hi
    rw [if_neg (by omega)]
    exact getD_replicate_pair _ _

/-- Witness for partial_steps_data_spec on a three-step program. -/
theorem partial_steps_data_witness :
    (Program.mk 1 [⟨1000, 1⟩, ⟨2000, 2⟩, ⟨3000, 3⟩] 0)._prog_steps.length
      ≤ 10 ∧
    (partial_steps_data (Program.mk 1 [⟨1000, 1⟩, ⟨2000, 2⟩, ⟨3000, 3⟩] 0)
      0).length = 5 ∧
    ((2 : ℕ) < 5 → (partial_steps_data
        (Program.mk 1 [⟨1000, 1⟩, ⟨2000, 2⟩, ⟨3000, 3⟩] 0) 0).getD 2 (0, 0) =
      if 0 + 2 < (Program.mk 1 [⟨1000, 1⟩, ⟨2000, 2⟩, ⟨3000, 3⟩]
          0)._prog_steps.length then
        ((Program.mk 1 [⟨1000, 1⟩, ⟨2000, 2⟩, ⟨3000, 3⟩]
          0)._prog_steps.map raw_data).getD (0 + 2) (0, 0)
      else (0, 0)) := by
  have h := partial_steps_data_spec
    (Program.mk 1 [⟨1000, 1⟩, ⟨2000, 2⟩, ⟨3000, 3⟩] 0) (by simp) 0
  exact ⟨by simp, h.1, h.2 2⟩

/-! Device session model: the Load class. -/

/-- Command code CMD_SET_PARAMETERS of the Load class. -/
def CMD_SET_PARAMETERS : ℕ := 0x90

/-- Command code CMD_READ_VALUES of the Load class. -/
def CMD_READ_VALUES : ℕ := 0x91

/-- Command code CMD_LOAD_STATE of the Load class. -/
def CMD_LOAD_STATE : ℕ := 0x92

/-- Load mode code SET_TYPE_CURRENT. -/
def SET_TYPE_CURRENT : ℕ := 0x01

/-- Load mode code SET_TYPE_POWER. -/
def SET_TYPE_POWER : ℕ := 0x02

/-- Load mode code SET_TYPE_RESISTANCE. -/
def SET_TYPE_RESISTANCE : ℕ := 0x03

/-- Session state of a Load object: the address plus the cached values, all
in device-native integer units, and the status flags. -/
structure LoadState where
  address : ℕ
  _max_current : ℕ
  _max_power : ℕ
  _load_mode : ℕ
  _load_value : ℕ
  _current : ℕ
  _power : ℕ
  _voltage : ℕ
  _resistance : ℕ
  _remote_control : Bool
  _load_on : Bool
  wrong_polarity : Bool
  excessive_temp : Bool
  excessive_voltage : Bool
  excessive_power : Bool
deriving DecidableEq

/-- Getter Load.current: amps computed from the cached milliamp value. -/
def Load_current (st : LoadState) : ℚ := (st._current : ℚ) / 1000

/-- Getter Load.power: watts computed from the cached tenth-watt value. -/
def Load_power (st : LoadState) : ℚ := (st._power : ℚ) / 10

/-- Getter Load.resistance: ohms computed from the cached centi-ohm value. -/
def Load_resistance (st : LoadState) : ℚ := (st._resistance : ℚ) / 100

/-- Getter Load.voltage: volts computed from the cached millivolt value. -/
def Load_voltage (st : LoadState) : ℚ := (st._voltage : ℚ) / 1000

/-- Packs a byte list into the buffer at the given offset, overwriting
exactly the packed bytes (struct.pack_into). -/
def pack_into (buf : List ℕ) (offset : ℕ) (data : List ℕ) : List ℕ :=
  buf.take offset ++ data ++ buf.drop (offset + data.length)

/-- Sets the first three bytes, sync 0xAA, address and command, and clears
the other 23 bytes (Load.__set_buffer_start with STRUCT_FRONT). -/
def set_buffer_start (address command : ℕ) : List ℕ :=
  [0xAA, address, command] ++ List.replicate 23 0

/-- Little-endian byte pair of an unsigned 16-bit value (struct format H). -/
def u16le (v : ℕ) : List ℕ :=
  [v % 256, v / 256 % 256]

/-- Flag byte sent by Load.__set_load_state: the remote-control bit shifted
left by one, combined with the load-on bit. -/
def load_state_flags (st : LoadState) : ℕ :=
  (st._remote_control.toNat <<< 1) ||| st._load_on.toNat

/-- Full LoadState (0x92) frame built by Load.__set_load_state, with the
flag byte packed at payload offset 3 by STRUCT_LOAD_STATE. -/
def load_state_frame (st : LoadState) : List ℕ :=
  set_checksum_buf (pack_into (set_buffer_start st.address CMD_LOAD_STATE) 3
    (load_state_flags st :: List.replicate 21 0))

/-- Full SetParameters (0x90) frame built by Load.__set_parameters with
STRUCT_SET_PARAMETERS. -/
def set_parameters_frame (st : LoadState) : List ℕ :=
  set_checksum_buf (pack_into
    (set_buffer_start st.address CMD_SET_PARAMETERS) 3
    (u16le st._max_current ++ u16le st._max_power ++
      [st.address, st._load_mode] ++ u16le st._load_value ++
      List.replicate 14 0))

/-- Full ReadValues (0x91) request frame built by Load.__update_status. -/
def read_values_out_frame (address : ℕ) : List ℕ :=
  set_checksum_buf (pack_into (set_buffer_start address CMD_READ_VALUES) 3
    (List.replicate 22 0))

lemma load_state_frame_payload (st : LoadState) :
    (load_state_frame st).getD 3 0 = load_state_flags st := by
  unfold load_state_frame set_checksum_buf OFFSET_CHECKSUM pack_into
  rw [List.getD_eq_getElem?_getD, List.getElem?_set_ne (by omega)]
  have h3 : ((set_buffer_start st.address CMD_LOAD_STATE).take 3).length
      = 3 := by
    simp [set_buffer_start]
  rw [List.getElem?_append_left (by simp [h3])]
  rw [List.getElem?_append_right (by omega)]
  simp [h3]

/-- Sample session state with remote control enabled and the load off. -/
def remote_on_load_off : LoadState :=
  ⟨0, 30000, 2000, 3, 500, 0, 0, 0, 0, true, false,
    false, false, false, false⟩

/-- C2 counterexample: with remote control on and the load off, the payload
flag byte of the built LoadState frame is 2: its bit 0 is clear although
remote_control is set, and its bit 1 is set although load_on is clear,
refuting the claimed layout bit 0 = remote_control, bit 1 = load_on. -/
theorem load_state_flag_bits_counterexample :
    (load_state_frame remote_on_load_off).getD 3 0 = 2 ∧
    remote_on_load_off._remote_control = true ∧
    remote_on_load_off._load_on = false ∧
    Nat.testBit ((load_state_frame remote_on_load_off).getD 3 0) 0 = false ∧
    Nat.testBit ((load_state_frame remote_on_load_off).getD 3 0) 1 = true := by
  decide

/-- C2 amended: for every session state, the LoadState (0x92) command built
by set_load_state places load_on in bit 0 and remote_control in bit 1 of the
single payload flag byte it sends. -/
theorem load_state_flag_bits (st : LoadState) :
    Nat.testBit ((load_state_frame st).getD 3 0) 0 = st._load_on ∧
    Nat.testBit ((load_state_frame st).getD 3 0) 1 = st._remote_control ∧
    (load_state_frame st).getD 3 0 =
      2 * st._remote_control.toNat + st._load_on.toNat := by
  rw [load_state_frame_payload]
  unfold load_state_flags
  cases st._remote_control <;> cases st._load_on <;> decide

/-! Transport exchange, status decoding and the retrying update_status. -/

/-- Communication failures raised as IOError by the Load class. -/
inductive CommErr where
  | shortRead (got : ℕ)
  | checksumRecv
  | checksumTop
  | retryExceeded
deriving DecidableEq

/-- Errors a session command can propagate: an IOError from the exchange or
a ValueError from range validation. -/
inductive LoadErr where
  | io (e : CommErr)
  | value (msg : String)
deriving DecidableEq

/-- One send-and-receive exchange (Load.__send_receive_buffer): the response
must be a full 26-byte frame and its checksum must validate, otherwise an
IOError is raised. -/
def send_receive (resp : List ℕ) : Except CommErr (List ℕ) :=
  if resp.length ≠ 26 then .error (.shortRead resp.length)
  else if ¬ is_valid_checksum resp then .error .checksumRecv
  else .ok resp

/-- Reads one unsigned 16-bit little-endian field at the given offset. -/
def readU16 (s : List ℕ) (i : ℕ) : ℕ :=
  s.getD i 0 + 256 * s.getD (i + 1) 0

/-- Reads one unsigned 32-bit little-endian field at the given offset. -/
def readU32 (s : List ℕ) (i : ℕ) : ℕ :=
  s.getD i 0 + 256 * s.getD (i + 1) 0 + 65536 * s.getD (i + 2) 0 +
    16777216 * s.getD (i + 3) 0

/-- Field decode of a ReadValues response by STRUCT_READ_VALUES_IN (format
3B H I 4H B 7x B, hence offsets 3, 5, 9, 11, 13, 15 and 17), storing the
seven payload values and deriving the six status booleans from the flag
byte; this is the body of Load.update_status after a successful exchange. -/
def apply_read_values (st : LoadState) (s : List ℕ) : LoadState :=
  let output_state := s.getD 17 0
  { st with
    _current := readU16 s 3
    _voltage := readU32 s 5
    _power := readU16 s 9
    _max_current := readU16 s 11
    _max_power := readU16 s 13
    _resistance := readU16 s 15
    _remote_control := decide (output_state &&& 0b00000001 > 0)
    _load_on := decide (output_state &&& 0b00000010 > 0)
    wrong_polarity := decide (output_state &&& 0b00000100 > 0)
    excessive_temp := decide (output_state &&& 0b00001000 > 0)
    excessive_voltage := decide (output_state &&& 0b00010000 > 0)
    excessive_power := decide (output_state &&& 0b00100000 > 0) }

/-- Result of an update_status call: the propagated error if any, the final
session state, the frames written to the transport, and the number of
send-and-receive attempts performed. -/
structure UpdateResult where
  err : Option CommErr
  state : LoadState
  writes : List (List ℕ)
  attempts : ℕ
deriving DecidableEq

/-- Retry loop of Load.update_status, one iteration per remaining count,
taking the attempt index and the remaining iteration count.  An IOError
from the exchange is caught and retried.  After a successful exchange the
source re-validates the checksum and, only when print_errors is set, raises
an uncaught IOError; this dead branch is transcribed faithfully. -/
def update_status_loop (pe : Bool) (reads : ℕ → List ℕ) (st : LoadState) :
    ℕ → ℕ → UpdateResult
  | _, 0 => ⟨some .retryExceeded, st, [], 0⟩
  | k, fuel + 1 =>
    let out := read_values_out_frame st.address
    match send_receive (reads k) with
    | .error _ =>
      let r := update_status_loop pe reads st (k + 1) fuel
      ⟨r.err, r.state, out :: r.writes, r.attempts + 1⟩
    | .ok frame =>
      if ¬ is_valid_checksum frame ∧ pe then
        ⟨some .checksumTop, st, [out], 1⟩
      else
        ⟨none, apply_read_values st frame, [out], 1⟩

/-- Load.update_status: clamps the retry count below at zero and performs
up to that many additional attempts after the first one. -/
def update_status (pe : Bool) (reads : ℕ → List ℕ) (st : LoadState)
    (retry_count : ℤ) : UpdateResult :=
  update_status_loop pe reads st 0 ((max retry_count 0).toNat + 1)

/-- Result of a session command: the propagated error if any, the final
session state and the frames written to the transport. -/
structure SessionResult where
  err : Option LoadErr
  state : LoadState
  writes : List (List ℕ)
deriving DecidableEq

/-- Load.__set_parameters: encodes the SetParameters frame, sends it, and
then triggers update_status with the default retry count. -/
def set_parameters (pe : Bool) (reads : ℕ → List ℕ) (st : LoadState) :
    SessionResult :=
  let frame := set_parameters_frame st
  let r := update_status pe reads st 2
  ⟨r.err.map .io, r.state, frame :: r.writes⟩

/-- Rounding used by the Python round builtin: round half to even. -/
def pythonRound (q : ℚ) : ℤ :=
  if q - ⌊q⌋ < 1 / 2 then ⌊q⌋
  else if q - ⌊q⌋ > 1 / 2 then ⌊q⌋ + 1
  else if ⌊q⌋ % 2 = 0 then ⌊q⌋ else ⌊q⌋ + 1

/-- Load.set_load_current: validates the milliamp range before switching
the mode, storing the value and calling set_parameters. -/
def set_load_current (pe : Bool) (reads : ℕ → List ℕ) (st : LoadState)
    (current_amps : ℚ) : SessionResult :=
  let new_val := pythonRound (current_amps * 1000)
  if ¬ (0 ≤ new_val ∧ new_val ≤ 30000) then
    ⟨some (.value "Load Current should be between 0-30A"), st, []⟩
  else
    set_parameters pe reads
      { st with _load_mode := SET_TYPE_CURRENT, _load_value := new_val.toNat }

/-- Load.set_load_power: validates the tenth-watt range before switching
the mode, storing the value and calling set_parameters. -/
def set_load_power (pe : Bool) (reads : ℕ → List ℕ) (st : LoadState)
    (power_watts : ℚ) : SessionResult :=
  let new_val := pythonRound (power_watts * 10)
  if ¬ (0 ≤ new_val ∧ new_val ≤ 2000) then
    ⟨some (.value "Load Power should be between 0-200 W"), st, []⟩
  else
    set_parameters pe reads
      { st with _load_mode := SET_TYPE_POWER, _load_value := new_val.toNat }

/-- Load.set_load_resistance: validates the centi-ohm range before
switching the mode, storing the value and calling set_parameters. -/
def set_load_resistance (pe : Bool) (reads : ℕ → List ℕ) (st : LoadState)
    (resistance : ℚ) : SessionResult :=
  let new_val := pythonRound (resistance * 100)
  if ¬ (0 ≤ new_val ∧ new_val ≤ 50000) then
    ⟨some (.value "Load Resistance should be between 0-500 ohms"), st, []⟩
  else
    set_parameters pe reads
      { st with _load_mode := SET_TYPE_RESISTANCE,
                _load_value := new_val.toNat }

/-- Setter Load.max_current: validates the milliamp range before storing
the value and calling set_parameters. -/
def set_max_current (pe : Bool) (reads : ℕ → List ℕ) (st : LoadState)
    (current_amps : ℚ) : SessionResult :=
  let new_val := pythonRound (current_amps * 1000)
  if ¬ (0 ≤ new_val ∧ new_val ≤ 30000) then
    ⟨some (.value "Max Current should be between 0-30A"), st, []⟩
  else
    set_parameters pe reads { st with _max_current := new_val.toNat }

/-- Setter Load.max_power: validates the tenth-watt range before storing
the value and calling set_parameters. -/
def set_max_power (pe : Bool) (reads : ℕ → List ℕ) (st : LoadState)
    (power_watts : ℚ) : SessionResult :=
  let new_val := pythonRound (power_watts * 10)
  if ¬ (0 ≤ new_val ∧ new_val ≤ 2000) then
    ⟨some (.value "Max Power should be between 0-200W"), st, []⟩
  else
    set_parameters pe reads { st with _max_power := new_val.toNat }

/-- Cached values set by Load.__init__ before the first update_status. -/
def initial_state : LoadState :=
  ⟨0, 30000, 2000, SET_TYPE_RESISTANCE, 500, 0, 0, 0, 0,
    false, false, false, false, false, false⟩

lemma send_receive_short (resp : List ℕ) (h : resp.length ≠ 26) :
    send_receive resp = Except.error (.shortRead resp.length) := by
  simp [send_receive, h]

lemma send_receive_bad_checksum (resp : List ℕ) (h1 : resp.length = 26)
    (h2 : is_valid_checksum resp = false) :
    send_receive resp = Except.error .checksumRecv := by
  simp [send_receive, h1, h2]

lemma send_receive_full (resp : List ℕ) (h1 : resp.length = 26)
    (h2 : is_valid_checksum resp = true) :
    send_receive resp = Except.ok resp := by
  simp [send_receive, h1, h2]

lemma send_receive_ok_valid {resp frame : List ℕ}
    (h : send_receive resp = Except.ok frame) :
    frame = resp ∧ is_valid_checksum resp = true := by
  unfold send_receive at h
  split at h
  · simp at h
  · split at h
    · simp at h
    · rename_i h1 h2
      injection h with hh
      subst hh
      exact ⟨rfl, by simpa using h2⟩

lemma update_status_loop_all_fail (pe : Bool) (reads : ℕ → List ℕ)
    (st : LoadState) (fuel : ℕ) :
    ∀ k, (∀ j, k ≤ j → ∃ e, send_receive (reads j) = Except.error e) →
    update_status_loop pe reads st k fuel =
      ⟨some .retryExceeded, st,
        List.replicate fuel (read_values_out_frame st.address), fuel⟩ := by
  induction fuel with
  | zero => intro k _; simp [update_status_loop]
  | succ n ih =>
    intro k h
    obtain ⟨e, he⟩ := h k le_rfl
    have hr := ih (k + 1) (fun j hj => h j (by omega))
    simp [update_status_loop, he, hr, List.replicate_succ]

lemma update_status_loop_one_le (pe : Bool) (reads : ℕ → List ℕ)
    (st : LoadState) (k n : ℕ) :
    1 ≤ (update_status_loop pe reads st k (n + 1)).attempts := by
  rcases hsr : send_receive (reads k) with e | f <;>
    simp only [update_status_loop, hsr]
  · simp
  · split <;> simp

lemma update_status_loop_succeeds_at (pe : Bool) (reads : ℕ → List ℕ)
    (st : LoadState) (j : ℕ) :
    ∀ k fuel, j < fuel →
    (∀ i, i < j → ∃ e, send_receive (reads (k + i)) = Except.error e) →
    (reads (k + j)).length = 26 →
    is_valid_checksum (reads (k + j)) = true →
    (update_status_loop pe reads st k fuel).err = none ∧
    (update_status_loop pe reads st k fuel).attempts = j + 1 := by
  induction j with
  | zero =>
    intro k fuel hfuel _ hlen hvalid
    obtain ⟨n, rfl⟩ : ∃ n, fuel = n + 1 := ⟨fuel - 1, by omega⟩
    simp only [Nat.add_zero] at hlen hvalid
    have hok := send_receive_full (reads k) hlen hvalid
    simp [update_status_loop, hok, hvalid]
  | succ m ih =>
    intro k fuel hfuel hprev hlen hvalid
    obtain ⟨n, rfl⟩ : ∃ n, fuel = n + 1 := ⟨fuel - 1, by omega⟩
    obtain ⟨e, he⟩ := hprev 0 (by omega)
    simp only [Nat.add_zero] at he
    have hih := ih (k + 1) n (by omega)
      (fun i hi => by
        obtain ⟨e', he'⟩ := hprev (i + 1) (by omega)
        exact ⟨e', by rw [show k + 1 + i = k + (i + 1) by omega]; exact he'⟩)
      (by rw [show k + 1 + m = k + (m + 1) by omega]; exact hlen)
      (by rw [show k + 1 + m = k + (m + 1) by omega]; exact hvalid)
    simp [update_status_loop, he, hih.1, hih.2]

lemma update_status_loop_pe_irrelevant (reads : ℕ → List ℕ)
    (st : LoadState) (fuel : ℕ) (pe₁ pe₂ : Bool) :
    ∀ k, update_status_loop pe₁ reads st k fuel =
      update_status_loop pe₂ reads st k fuel := by
  induction fuel with
  | zero => intro k; rfl
  | succ n ih =>
    intro k
    rcases hsr : send_receive (reads k) with e | f
    · simp [update_status_loop, hsr, ih (k + 1)]
    · obtain ⟨rfl, hv⟩ := send_receive_ok_valid hsr
      simp [update_status_loop, hsr, hv]

lemma decide_land_1 (n : ℕ) : decide (n &&& 1 > 0) = n.testBit 0 := by
  have h := Nat.and_two_pow n 0
  rw [show (2 : ℕ) ^ 0 = 1 from by norm_num] at h
  cases hb : n.testBit 0 <;>
    simp only [hb, Bool.toNat_false, Bool.toNat_true, zero_mul, one_mul] at h <;>
    simp only [h] <;> decide

lemma decide_land_2 (n : ℕ) : decide (n &&& 2 > 0) = n.testBit 1 := by
  have h := Nat.and_two_pow n 1
  rw [show (2 : ℕ) ^ 1 = 2 from by norm_num] at h
  cases hb : n.testBit 1 <;>
    simp only [hb, Bool.toNat_false, Bool.toNat_true, zero_mul, one_mul] at h <;>
    simp only [h] <;> decide

lemma decide_land_4 (n : ℕ) : decide (n &&& 4 > 0) = n.testBit 2 := by
  have h := Nat.and_two_pow n 2
  rw [show (2 : ℕ) ^ 2 = 4 from by norm_num] at h
  cases hb : n.testBit 2 <;>
    simp only [hb, Bool.toNat_false, Bool.toNat_true, zero_mul, one_mul] at h <;>
    simp only [h] <;> decide

lemma decide_land_8 (n : ℕ) : decide (n &&& 8 > 0) = n.testBit 3 := by
  have h := Nat.and_two_pow n 3
  rw [show (2 : ℕ) ^ 3 = 8 from by norm_num] at h
  cases hb : n.testBit 3 <;>
    simp only [hb, Bool.toNat_false, Bool.toNat_true, zero_mul, one_mul] at h <;>
    simp only [h] <;> decide

lemma decide_land_16 (n : ℕ) : decide (n &&& 16 > 0) = n.testBit 4 := by
  have h := Nat.and_two_pow n 4
  rw [show (2 : ℕ) ^ 4 = 16 from by norm_num] at h
  cases hb : n.testBit 4 <;>
    simp only [hb, Bool.toNat_false, Bool.toNat_true, zero_mul, one_mul] at h <;>
    simp only [h] <;> decide

lemma decide_land_32 (n : ℕ) : decide (n &&& 32 > 0) = n.testBit 5 := by
  have h := Nat.and_two_pow n 5
  rw [show (2 : ℕ) ^ 5 = 32 from by norm_num] at h
  cases hb : n.testBit 5 <;>
    simp only [hb, Bool.toNat_false, Bool.toNat_true, zero_mul, one_mul] at h <;>
    simp only [h] <;> decide

/-- Canonical ReadValues response frame, the fixture hard-coded in the
SerialTester stub of the source. -/
def sample_read_values_frame : List ℕ :=
  [0xAA, 0x00, 0x91, 0x00, 0x00, 0x00, 0x00, 0x00, 0x00, 0x00, 0x00,
   0x30, 0x75, 0xD0, 0x07, 0x50, 0xC3, 0x00, 0x01, 0x00, 0x00, 0x00, 0x00,
   0x50, 0xC3, 0xDE]

/-- C3: for every valid 26-byte ReadValues response frame, a successful
update_status decodes, after the 3 echoed header bytes, the little-endian
fields u16 current at offset 3, u32 voltage at 5, u16 power at 9, u16
max_current at 11, u16 max_power at 13, u16 resistance at 15 and the u8
status flag byte at 17 (followed by 7 pad bytes), stores them as device
units, the current, voltage, power and resistance accessors divide by 1000,
1000, 10 and 100, and the six status booleans come from bits 0 to 5 of the
flag byte. -/
theorem update_status_decode (pe : Bool) (reads : ℕ → List ℕ)
    (st : LoadState) (retry_count : ℤ)
    (hlen : (reads 0).length = 26)
    (hvalid : is_valid_checksum (reads 0) = true) :
    (update_status pe reads st retry_count).err = none ∧
    (update_status pe reads st retry_count).state._current =
      (reads 0).getD 3 0 + 256 * (reads 0).getD 4 0 ∧
    (update_status pe reads st retry_count).state._voltage =
      (reads 0).getD 5 0 + 256 * (reads 0).getD 6 0 +
        65536 * (reads 0).getD 7 0 + 16777216 * (reads 0).getD 8 0 ∧
    (update_status pe reads st retry_count).state._power =
      (reads 0).getD 9 0 + 256 * (reads 0).getD 10 0 ∧
    (update_status pe reads st retry_count).state._max_current =
      (reads 0).getD 11 0 + 256 * (reads 0).getD 12 0 ∧
    (update_status pe reads st retry_count).state._max_power =
      (reads 0).getD 13 0 + 256 * (reads 0).getD 14 0 ∧
    (update_status pe reads st retry_count).state._resistance =
      (reads 0).getD 15 0 + 256 * (reads 0).getD 16 0 ∧
    Load_current (update_status pe reads st retry_count).state =
      ((reads 0).getD 3 0 + 256 * (reads 0).getD 4 0 : ℚ) / 1000 ∧
    Load_voltage (update_status pe reads st retry_count).state =
      ((reads 0).getD 5 0 + 256 * (reads 0).getD 6 0 +
        65536 * (reads 0).getD 7 0 + 16777216 * (reads 0).getD 8 0 : ℚ)
        / 1000 ∧
    Load_power (update_status pe reads st retry_count).state =
      ((reads 0).getD 9 0 + 256 * (reads 0).getD 10 0 : ℚ) / 10 ∧
    Load_resistance (update_status pe reads st retry_count).state =
      ((reads 0).getD 15 0 + 256 * (reads 0).getD 16 0 : ℚ) / 100 ∧
    (update_status pe reads st retry_count).state._remote_control =
      ((reads 0).getD 17 0).testBit 0 ∧
    (update_status pe reads st retry_count).state._load_on =
      ((reads 0).getD 17 0).testBit 1 ∧
    (update_status pe reads st retry_count).state.wrong_polarity =
      ((reads 0).getD 17 0).testBit 2 ∧
    (update_status pe reads st retry_count).state.excessive_temp =
      ((reads 0).getD 17 0).testBit 3 ∧
    (update_status pe reads st retry_count).state.excessive_voltage =
      ((reads 0).getD 17 0).testBit 4 ∧
    (update_status pe reads st retry_count).state.excessive_power =
      ((reads 0).getD 17 0).testBit 5 := by
  have hok := send_receive_full (reads 0) hlen hvalid
  have hres : update_status pe reads st retry_count =
      ⟨none, apply_read_values st (reads 0),
        [read_values_out_frame st.address], 1⟩ := by
    simp [update_status, update_status_loop, hok, hvalid]
  rw [hres]
  refine ⟨rfl, ?_, ?_, ?_, ?_, ?_, ?_, ?_, ?_, ?_, ?_, ?_, ?_, ?_, ?_, ?_,
    ?_⟩ <;>
    simp [apply_read_values, readU16, readU32, Load_current, Load_voltage,
      Load_power, Load_resistance, decide_land_1, decide_land_2,
      decide_land_4, decide_land_8, decide_land_16, decide_land_32] <;>
    omega

/-- Witness for update_status_decode on the canonical fixture frame. -/
theorem update_status_decode_witness :
    sample_read_values_frame.length = 26 ∧
    is_valid_checksum sample_read_values_frame = true ∧
    (update_status true (fun _ => sample_read_values_frame)
      initial_state 2).err = none ∧
    (update_status true (fun _ => sample_read_values_frame)
      initial_state 2).state._max_current = 30000 ∧
    (update_status true (fun _ => sample_read_values_frame)
      initial_state 2).state._max_power = 2000 ∧
    (update_status true (fun _ => sample_read_values_frame)
      initial_state 2).state._resistance = 50000 ∧
    Load_resistance (update_status true (fun _ => sample_read_values_frame)
      initial_state 2).state = 500 := by
  have h := update_status_decode true (fun _ => sample_read_values_frame)
    initial_state 2 (by decide) (by decide)
  refine ⟨by decide, by decide, h.1, by decide, by decide, by decide, ?_⟩
  have h11 := h.2.2.2.2.2.2.2.2.2.2.1
  rw [h11]
  norm_num [sample_read_values_frame]

/-- C4: with a transport whose reads always come back short, update_status
performs exactly 1 + retry_count send-and-receive exchanges and then fails
with the retry-count-exceeded IOError; and when an exchange succeeds at some
attempt after only failed ones, update_status returns normally with no
further attempts. -/
theorem update_status_retry_policy (pe : Bool) (reads : ℕ → List ℕ)
    (st : LoadState) (retry_count : ℤ) (hrc : 0 ≤ retry_count) :
    ((∀ k, (reads k).length ≠ 26) →
      (update_status pe reads st retry_count).attempts
          = retry_count.toNat + 1 ∧
      (update_status pe reads st retry_count).err
          = some CommErr.retryExceeded) ∧
    (∀ j, j ≤ retry_count.toNat →
      (∀ k, k < j → (reads k).length ≠ 26) →
      (reads j).length = 26 → is_valid_checksum (reads j) = true →
      (update_status pe reads st retry_count).err = none ∧
      (update_status pe reads st retry_count).attempts = j + 1) := by
  have hfuel : (max retry_count 0) = retry_count := max_eq_left hrc
  constructor
  · intro hshort
    have hfail : ∀ j, (0 : ℕ) ≤ j →
        ∃ e, send_receive (reads j) = Except.error e :=
      fun j _ => ⟨_, send_receive_short _ (hshort j)⟩
    unfold update_status
    rw [hfuel, update_status_loop_all_fail pe reads st _ 0 hfail]
    exact ⟨rfl, rfl⟩
  · intro j hj hprev hlen hvalid
    unfold update_status
    rw [hfuel]
    exact update_status_loop_succeeds_at pe reads st j 0 _ (by omega)
      (fun i hi => ⟨_, send_receive_short _ (by
        simpa using hprev i (by omega))⟩)
      (by simpa using hlen) (by simpa using hvalid)

/-- Witness for update_status_retry_policy: an always-empty read exhausts
the budget, and the canonical fixture succeeds on the first attempt. -/
theorem update_status_retry_policy_witness :
    (0 : ℤ) ≤ 2 ∧
    (∀ k : ℕ, ((fun _ : ℕ => ([] : List ℕ)) k).length ≠ 26) ∧
    ((update_status true (fun _ => ([] : List ℕ)) initial_state 2).attempts
        = (2 : ℤ).toNat + 1 ∧
      (update_status true (fun _ => ([] : List ℕ)) initial_state 2).err
        = some CommErr.retryExceeded) ∧
    ((update_status true (fun _ => sample_read_values_frame)
        initial_state 2).err = none ∧
      (update_status true (fun _ => sample_read_values_frame)
        initial_state 2).attempts = 0 + 1) := by
  refine ⟨by decide, fun _ => by simp,
    (update_status_retry_policy true (fun _ => ([] : List ℕ))
      initial_state 2 (by decide)).1 (fun _ => by simp),
    (update_status_retry_policy true (fun _ => sample_read_values_frame)
      initial_state 2 (by decide)).2 0 (by decide)
      (fun k hk => absurd hk (by omega)) (by decide) (by decide)⟩

/-- C5: during update_status a received frame that fails checksum
validation is always treated as a retryable IOError, consuming one retry
like any other I/O failure and never silently accepted, and the whole
outcome of update_status does not depend on the print_errors toggle. -/
theorem checksum_failure_is_retryable (reads : ℕ → List ℕ) (st : LoadState)
    (retry_count : ℤ) (pe₁ pe₂ : Bool) :
    update_status pe₁ reads st retry_count
      = update_status pe₂ reads st retry_count ∧
    ((∀ k, (reads k).length = 26 ∧ is_valid_checksum (reads k) = false) →
      (update_status pe₁ reads st retry_count).err
          = some CommErr.retryExceeded ∧
      (update_status pe₁ reads st retry_count).attempts
          = (max retry_count 0).toNat + 1 ∧
      (update_status pe₁ reads st retry_count).state = st) := by
  constructor
  · unfold update_status
    exact update_status_loop_pe_irrelevant reads st _ pe₁ pe₂ 0
  · intro hbad
    have hfail : ∀ j, (0 : ℕ) ≤ j →
        ∃ e, send_receive (reads j) = Except.error e :=
      fun j _ =>
        ⟨_, send_receive_bad_checksum _ (hbad j).1 (hbad j).2⟩
    unfold update_status
    rw [update_status_loop_all_fail pe₁ reads st _ 0 hfail]
    exact ⟨rfl, rfl, rfl⟩

/-- Witness for checksum_failure_is_retryable with a constant corrupted
frame: 26 bytes whose trailing checksum byte does not match. -/
theorem checksum_failure_is_retryable_witness :
    (∀ k : ℕ, (List.replicate 25 0 ++ [1] : List ℕ).length = 26 ∧
      is_valid_checksum (List.replicate 25 0 ++ [1]) = false) ∧
    update_status true (fun _ => List.replicate 25 0 ++ [1])
        initial_state 2 =
      update_status false (fun _ => List.replicate 25 0 ++ [1])
        initial_state 2 ∧
    (update_status true (fun _ => List.replicate 25 0 ++ [1])
      initial_state 2).err = some CommErr.retryExceeded ∧
    (update_status true (fun _ => List.replicate 25 0 ++ [1])
      initial_state 2).attempts = (max (2 : ℤ) 0).toNat + 1 ∧
    (update_status true (fun _ => List.replicate 25 0 ++ [1])
      initial_state 2).state = initial_state := by
  have h := checksum_failure_is_retryable
    (fun _ => List.replicate 25 0 ++ [1]) initial_state 2 true false
  have hb := h.2 (fun _ => by decide)
  exact ⟨fun _ => by decide, h.1, hb.1, hb.2.1, hb.2.2⟩

/-- C9: every set_load_current, set_load_power, set_load_resistance,
max_current and max_power setter call with an out-of-range value fails with
the corresponding ValueError before any transport write and before any
session state change: the returned state is the prior state unchanged and
no frames are written. -/
theorem setters_validate_before_io (pe : Bool) (reads : ℕ → List ℕ)
    (st : LoadState) (q : ℚ) :
    (¬ (0 ≤ pythonRound (q * 1000) ∧ pythonRound (q * 1000) ≤ 30000) →
      set_load_current pe reads st q =
        ⟨some (.value "Load Current should be between 0-30A"), st, []⟩) ∧
    (¬ (0 ≤ pythonRound (q * 10) ∧ pythonRound (q * 10) ≤ 2000) →
      set_load_power pe reads st q =
        ⟨some (.value "Load Power should be between 0-200 W"), st, []⟩) ∧
    (¬ (0 ≤ pythonRound (q * 100) ∧ pythonRound (q * 100) ≤ 50000) →
      set_load_resistance pe reads st q =
        ⟨some (.value "Load Resistance should be between 0-500 ohms"),
          st, []⟩) ∧
    (¬ (0 ≤ pythonRound (q * 1000) ∧ pythonRound (q * 1000) ≤ 30000) →
      set_max_current pe reads st q =
        ⟨some (.value "Max Current should be between 0-30A"), st, []⟩) ∧
    (¬ (0 ≤ pythonRound (q * 10) ∧ pythonRound (q * 10) ≤ 2000) →
      set_max_power pe reads st q =
        ⟨some (.value "Max Power should be between 0-200W"), st, []⟩) := by
  refine ⟨?_, ?_, ?_, ?_, ?_⟩ <;> intro h <;>
    simp only [set_load_current, set_load_power, set_load_resistance,
      set_max_current, set_max_power, if_pos h]

/-- Witness for setters_validate_before_io at 600 physical units, which is
out of range for all five setters. -/
theorem setters_validate_before_io_witness :
    (¬ (0 ≤ pythonRound ((600 : ℚ) * 1000) ∧
        pythonRound ((600 : ℚ) * 1000) ≤ 30000)) ∧
    (¬ (0 ≤ pythonRound ((600 : ℚ) * 10) ∧
        pythonRound ((600 : ℚ) * 10) ≤ 2000)) ∧
    (¬ (0 ≤ pythonRound ((600 : ℚ) * 100) ∧
        pythonRound ((600 : ℚ) * 100) ≤ 50000)) ∧
    set_load_current true (fun _ => []) initial_state 600 =
      ⟨some (.value "Load Current should be between 0-30A"),
        initial_state, []⟩ ∧
    set_load_power true (fun _ => []) initial_state 600 =
      ⟨some (.value "Load Power should be between 0-200 W"),
        initial_state, []⟩ ∧
    set_load_resistance true (fun _ => []) initial_state 600 =
      ⟨some (.value "Load Resistance should be between 0-500 ohms"),
        initial_state, []⟩ ∧
    set_max_current true (fun _ => []) initial_state 600 =
      ⟨some (.value "Max Current should be between 0-30A"),
        initial_state, []⟩ ∧
    set_max_power true (fun _ => []) initial_state 600 =
      ⟨some (.value "Max Power should be between 0-200W"),
        initial_state, []⟩ := by
  have e1 : ((600 : ℚ) * 1000) = ((600000 : ℤ) : ℚ) := by norm_num
  have e2 : ((600 : ℚ) * 10) = ((6000 : ℤ) : ℚ) := by norm_num
  have e3 : ((600 : ℚ) * 100) = ((60000 : ℤ) : ℚ) := by norm_num
  have h1 : pythonRound ((600 : ℚ) * 1000) = 600000 := by
    simp only [pythonRound, e1, Int.floor_intCast]
    norm_num
  have h2 : pythonRound ((600 : ℚ) * 10) = 6000 := by
    simp only [pythonRound, e2, Int.floor_intCast]
    norm_num
  have h3 : pythonRound ((600 : ℚ) * 100) = 60000 := by
    simp only [pythonRound, e3, Int.floor_intCast]
    norm_num
  have n1 : ¬ (0 ≤ pythonRound ((600 : ℚ) * 1000) ∧
      pythonRound ((600 : ℚ) * 1000) ≤ 30000) := by
    rw [h1]; decide
  have n2 : ¬ (0 ≤ pythonRound ((600 : ℚ) * 10) ∧
      pythonRound ((600 : ℚ) * 10) ≤ 2000) := by
    rw [h2]; decide
  have n3 : ¬ (0 ≤ pythonRound ((600 : ℚ) * 100) ∧
      pythonRound ((600 : ℚ) * 100) ≤ 50000) := by
    rw [h3]; decide
  have h := setters_validate_before_io true (fun _ => []) initial_state 600
  exact ⟨n1, n2, n3, h.1 n1, h.2.1 n2, h.2.2.1 n3, h.2.2.2.1 n1,
    h.2.2.2.2 n2⟩

/-- C10: a negative retry count is clamped at zero, so update_status then
behaves exactly like a zero retry count and always performs at least one
full send-and-receive attempt before failing. -/
theorem update_status_clamps_negative (pe : Bool) (reads : ℕ → List ℕ)
    (st : LoadState) (retry_count : ℤ) (h : retry_count ≤ 0) :
    update_status pe reads st retry_count = update_status pe reads st 0 ∧
    1 ≤ (update_status pe reads st retry_count).attempts := by
  have hmax : max retry_count 0 = 0 := max_eq_right h
  constructor
  · unfold update_status
    rw [hmax]
    norm_num
  · unfold update_status
    rw [hmax]
    exact update_status_loop_one_le pe reads st 0 _

/-- Witness for update_status_clamps_negative at retry count -5. -/
theorem update_status_clamps_negative_witness :
    ((-5 : ℤ) ≤ 0) ∧
    update_status true (fun _ => []) initial_state (-5) =
      update_status true (fun _ => []) initial_state 0 ∧
    1 ≤ (update_status true (fun _ => []) initial_state (-5)).attempts := by
  have h := update_status_clamps_negative true (fun _ => [])
    initial_state (-5) (by decide)
  exact ⟨by decide, h.1, h.2⟩

end ArrayDevices
